import Mathlib

/-!
Shallow embedding of the rust-securedrop-api client library
(src/auth.rs, src/client.rs, src/data.rs, src/error.rs).

Modelling conventions for the external collaborators:
- JSON values and serde decoding are modelled by an inductive Json type and
  a DeserializeOwned class mirroring serde de DeserializeOwned; a response
  body that is not valid JSON is modelled as a parse Except error.
- The reqwest HTTP client is modelled as a function from an assembled
  Request to either a reqwest level error or an HTTP response; the engine
  passes every request it builds to this function.
- chrono DateTime values are kept as their opaque wire strings; nothing in
  the client inspects them.
- The Error wrapper in error.rs only adds failure context around ErrorKind,
  so fallible operations are modelled as Except ErrorKind directly.
-/

namespace SecureDrop

/-- Minimal JSON value model for request and response bodies. -/
inductive Json where
  | null : Json
  | bool (b : Bool) : Json
  | num (n : Int) : Json
  | str (s : String) : Json
  | arr (xs : List Json) : Json
  | obj (fields : List (String × Json)) : Json

/-- Field access used by the derived serde decoders: a struct field must be
present in the JSON object (serde default rejects a missing field and
ignores unknown ones). -/
def Json.getField (fields : List (String × Json)) (k : String) : Except String Json :=
  match fields.lookup k with
  | some v => Except.ok v
  | none => Except.error ("missing field " ++ k)

/-- Decoding a JSON value as a string, mirroring serde for String. -/
def Json.asStr : Json → Except String String
  | .str s => Except.ok s
  | _ => Except.error "invalid type: expected a string"

/-- Decoding a JSON value as a boolean. -/
def Json.asBool : Json → Except String Bool
  | .bool b => Except.ok b
  | _ => Except.error "invalid type: expected a boolean"

/-- Decoding a JSON value as an unsigned integer (u32 and u64 fields are
modelled as Nat; the wire values in range are the only concern here). -/
def Json.asNat : Json → Except String Nat
  | .num n => if n < 0 then Except.error "invalid value: negative integer" else Except.ok n.toNat
  | _ => Except.error "invalid type: expected an integer"

/-- Decoding a JSON value as an array. -/
def Json.asArr : Json → Except String (List Json)
  | .arr xs => Except.ok xs
  | _ => Except.error "invalid type: expected an array"

/-- Decoding a JSON value as an object. -/
def Json.asObj : Json → Except String (List (String × Json))
  | .obj fields => Except.ok fields
  | _ => Except.error "invalid type: expected an object"

/-- Mirror of serde de DeserializeOwned: how a typed value is decoded from
a JSON body. -/
class DeserializeOwned (α : Type) where
  deserialize : Json → Except String α

instance : DeserializeOwned String where
  deserialize := Json.asStr

/-- chrono DateTime of Utc, kept as the opaque wire string. -/
abbrev DateTimeUtc := String

/-- ErrorKind from error.rs. The IO variant of the source is named IOError
here to stay clear of the builtin namespace of the same name. -/
inductive ErrorKind where
  | AuthError : ErrorKind
  | ClientError (message : String) : ErrorKind
  | IOError (detail : String) : ErrorKind
  | NetworkError : ErrorKind
  | ProgrammingError (detail : String) : ErrorKind
  | ServerError : ErrorKind
  | UnknownError : ErrorKind
deriving DecidableEq

/-- UserPassTotp from auth.rs: username, passphrase and a caller supplied
one time code, stored verbatim. -/
structure UserPassTotp where
  username : String
  passphrase : String
  one_time_code : String
deriving DecidableEq

/-- UserPassTotp constructor (auth.rs lines 36 to 47): all three parameters
are stored as given. -/
def UserPassTotp.new (username passphrase one_time_code : String) : UserPassTotp :=
  { username := username, passphrase := passphrase, one_time_code := one_time_code }

/-- UserPassHotp from auth.rs: username, passphrase and a caller supplied
one time code, stored verbatim. -/
structure UserPassHotp where
  username : String
  passphrase : String
  one_time_code : String
deriving DecidableEq

/-- UserPassHotp constructor (auth.rs lines 58 to 69): all three parameters
are stored as given; the doc comment of the source states the OTP value is
passed in and reused for each authentication attempt. -/
def UserPassHotp.new (username passphrase one_time_code : String) : UserPassHotp :=
  { username := username, passphrase := passphrase, one_time_code := one_time_code }

/-- Credentials from auth.rs: the two known kinds of credentials. -/
inductive Credentials where
  | UserPassTotp (c : SecureDrop.UserPassTotp) : Credentials
  | UserPassHotp (c : SecureDrop.UserPassHotp) : Credentials
deriving DecidableEq

/-- Serialization of UserPassTotp as derived by serde: fields in declaration
order, with passphrase renamed to password. -/
def UserPassTotp.serializeFields (c : UserPassTotp) : List (String × Json) :=
  [("username", Json.str c.username),
   ("password", Json.str c.passphrase),
   ("one_time_code", Json.str c.one_time_code)]

/-- Serialization of UserPassHotp as derived by serde: fields in declaration
order, with passphrase renamed to password. -/
def UserPassHotp.serializeFields (c : UserPassHotp) : List (String × Json) :=
  [("username", Json.str c.username),
   ("password", Json.str c.passphrase),
   ("one_time_code", Json.str c.one_time_code)]

/-- Serialize for Credentials (auth.rs lines 15 to 25): delegates to the
serialization of the wrapped variant. -/
def Credentials.serialize : Credentials → List (String × Json)
  | .UserPassTotp c => c.serializeFields
  | .UserPassHotp c => c.serializeFields

/-- AuthToken from auth.rs: the token string plus its expiry timestamp. Its
Display implementation prints only the token string. -/
structure AuthToken where
  token : String
  expires : DateTimeUtc
deriving DecidableEq

instance : DeserializeOwned AuthToken where
  deserialize j := do
    let f ← j.asObj
    let token ← (← Json.getField f "token").asStr
    let expires ← (← Json.getField f "expires").asStr
    pure { token := token, expires := expires }

/-- Authorization from auth.rs: either raw credentials (not yet exchanged)
or an acquired token. -/
inductive Authorization where
  | Credentials (creds : SecureDrop.Credentials) : Authorization
  | Token (token : AuthToken) : Authorization
deriving DecidableEq

/-- Source from data.rs; the Uuid and DateTime fields are kept as their
opaque wire strings. -/
structure Source where
  uuid : String
  is_flagged : Bool
  last_updated : DateTimeUtc
  interaction_count : Nat
  journalist_designation : String
  number_of_documents : Nat
  number_of_messages : Nat
  public_key : String
deriving DecidableEq

instance : DeserializeOwned Source where
  deserialize j := do
    let f ← j.asObj
    let uuid ← (← Json.getField f "uuid").asStr
    let is_flagged ← (← Json.getField f "flagged").asBool
    let last_updated ← (← Json.getField f "last_updated").asStr
    let interaction_count ← (← Json.getField f "interaction_count").asNat
    let journalist_designation ← (← Json.getField f "journalist_designation").asStr
    let number_of_documents ← (← Json.getField f "number_of_documents").asNat
    let number_of_messages ← (← Json.getField f "number_of_messages").asNat
    let public_key ← (← Json.getField f "public_key").asStr
    pure { uuid := uuid, is_flagged := is_flagged, last_updated := last_updated,
           interaction_count := interaction_count,
           journalist_designation := journalist_designation,
           number_of_documents := number_of_documents,
           number_of_messages := number_of_messages, public_key := public_key }

/-- Sources from data.rs: the list wrapper around Source records. -/
structure Sources where
  sources : List Source
deriving DecidableEq

instance : DeserializeOwned Sources where
  deserialize j := do
    let f ← j.asObj
    let xs ← (← Json.getField f "sources").asArr
    let sources ← xs.mapM (DeserializeOwned.deserialize (α := Source))
    pure { sources := sources }

/-- Reply from data.rs: a pre-encrypted reply payload. -/
structure Reply where
  reply : String
deriving DecidableEq

/-- The starts-with test of the standard library, written on the underlying
character lists so that the kernel can evaluate it on concrete strings. -/
def string_starts_with (s pat : String) : Bool :=
  pat.data.isPrefixOf s.data

/-- The ends-with test of the standard library, written on the underlying
character lists so that the kernel can evaluate it on concrete strings. -/
def string_ends_with (s pat : String) : Bool :=
  pat.data.isSuffixOf s.data

/-- Reply constructor (data.rs lines 142 to 158): rejects, before any
network interaction, a payload that does not carry the PGP armor begin and
end markers; the error message spelling follows the source. -/
def Reply.new (reply : String) : Except ErrorKind Reply :=
  if !string_starts_with reply "-----BEGIN PGP MESSAGE-----"
      || !string_ends_with reply "-----END PGP MESSAGE-----" then
    Except.error (ErrorKind.ClientError "Mesage not PGP encrypted")
  else
    Except.ok { reply := reply }

/-- Model of reqwest Error as the two predicates the client inspects on the
transport failure path of parse_req. -/
structure ReqwestError where
  is_http : Bool
  is_server_error : Bool
deriving DecidableEq

/-- An HTTP response: its status code, its payload parsed as JSON (an
Except error when the payload is not valid JSON), and the raw payload
bytes consumed by copy_to. -/
structure HttpResponse where
  status : Nat
  body : Except String Json
  raw : String

/-- Mirrors StatusCode is_success: the 2xx range. -/
def status_is_success (s : Nat) : Bool := decide (200 ≤ s ∧ s < 300)

/-- Mirrors StatusCode is_server_error: the 5xx range. -/
def status_is_server_error (s : Nat) : Bool := decide (500 ≤ s ∧ s < 600)

/-- Mirrors StatusCode is_client_error: the 4xx range. -/
def status_is_client_error (s : Nat) : Bool := decide (400 ≤ s ∧ s < 500)

/-- Mirrors Response json of reqwest: parse the payload as JSON, then decode
the typed value from it. -/
def HttpResponse.json {α : Type} [DeserializeOwned α] (r : HttpResponse) :
    Except String α :=
  match r.body with
  | .ok j => DeserializeOwned.deserialize j
  | .error e => Except.error e

/-- URL model: scheme, host and path. Query and fragment are never used by
the client. -/
structure Url where
  scheme : String
  host : String
  path : String
deriving DecidableEq

/-- Mirrors set_path of the url crate: the whole path component of the URL
is replaced, and a leading slash is added when the argument lacks one. -/
def Url.set_path (u : Url) (p : String) : Url :=
  { u with path := if string_starts_with p "/" then p else "/" ++ p }

/-- The header slots the client ever sets; none means the header is absent
from the request. -/
structure Headers where
  contentType : Option String
  accept : Option String
  authorization : Option String
deriving DecidableEq

/-- Mirrors Headers new of reqwest: the empty header map. -/
def Headers.new : Headers :=
  { contentType := none, accept := none, authorization := none }

/-- HTTP methods used by the client. -/
inductive Method where
  | GET : Method
  | POST : Method
  | DELETE : Method
deriving DecidableEq

/-- An assembled request as handed to the transport collaborator. -/
structure Request where
  method : Method
  url : Url
  headers : Headers
  body : Option Json

/-- The transport collaborator: dispatching an assembled request yields
either a reqwest level error or an HTTP response. -/
abbrev HttpClient := Request → Except ReqwestError HttpResponse

/-- Client from client.rs: the base URL, the HTTP transport and the current
authorization state. -/
structure Client where
  url_base : Url
  http : HttpClient
  auth : Authorization

/-- Client url (client.rs lines 40 to 44): clones the base URL and calls
set_path with the string api/v1/ followed by the operation path. -/
def Client.url (c : Client) (path : String) : Url :=
  c.url_base.set_path ("api/v1/" ++ path)

/-- Client auth_header (client.rs lines 54 to 59): sets the Authorization
header to the word Token, a space and the token string (the Display of
AuthToken prints the token string) when a token is held; sets nothing when
the state still holds raw credentials. -/
def Client.auth_header (c : Client) (headers : Headers) : Headers :=
  match c.auth with
  | .Token t => { headers with authorization := some ("Token " ++ t.token) }
  | .Credentials _ => headers

/-- Client headers (client.rs lines 46 to 52): a fresh header map with the
JSON content type and accept entries, then auth_header. -/
def Client.headers (c : Client) : Headers :=
  c.auth_header { Headers.new with
    contentType := some "application/json", accept := some "application/json" }

/-- The header map built inside download_submission (client.rs lines 228 to
230): a fresh map with only the content type for the encrypted payload
(spelled appication/pgp-encrypted in the source) and auth_header; no accept
entry is set. -/
def Client.download_headers (c : Client) : Headers :=
  c.auth_header { Headers.new with contentType := some "appication/pgp-encrypted" }

/-- Client parse_req (client.rs lines 96 to 130): classification of a raw
HTTP outcome. On a response: success runs the continuation; otherwise the
5xx check comes first, then the 4xx check, then the fallback. In the 4xx
branch the scrutinee of resp json is forced to String by the type of
ClientError, so the error body is decoded as a bare JSON string. On a
transport error: not HTTP means NetworkError, a server error flag means
ServerError, anything else the fallback. -/
def Client.parse_req {α : Type} (resp : Except ReqwestError HttpResponse)
    (func : HttpResponse → Except ErrorKind α) : Except ErrorKind α :=
  match resp with
  | .ok r =>
    if status_is_success r.status then
      func r
    else if status_is_server_error r.status then
      Except.error ErrorKind.ServerError
    else if status_is_client_error r.status then
      match r.json (α := String) with
      | .ok err => Except.error (ErrorKind.ClientError err)
      | .error _ => Except.error (ErrorKind.ProgrammingError "Parse failure.")
    else
      Except.error ErrorKind.UnknownError
  | .error err =>
    if !err.is_http then
      Except.error ErrorKind.NetworkError
    else if err.is_server_error then
      Except.error ErrorKind.ServerError
    else
      Except.error ErrorKind.UnknownError

/-- Client parse_json (client.rs lines 86 to 94): classify the outcome and,
on success, decode the typed value, mapping a decode failure to
ProgrammingError with the decode detail. -/
def Client.parse_json {α : Type} [DeserializeOwned α]
    (resp : Except ReqwestError HttpResponse) : Except ErrorKind α :=
  Client.parse_req resp (fun r =>
    match r.json (α := α) with
    | .ok a => Except.ok a
    | .error e => Except.error (ErrorKind.ProgrammingError e))

/-- The request dispatched by authorize (client.rs lines 72 to 80): POST to
the token endpoint with the standard headers; the serialized credentials
travel as the JSON body when the state holds raw credentials, and no body
is sent when a token is already held. -/
def Client.token_request (c : Client) : Request :=
  { method := Method.POST
    url := c.url "token"
    headers := c.headers
    body :=
      match c.auth with
      | .Credentials creds => some (Json.obj creds.serialize)
      | .Token _ => none }

/-- Client authorize (client.rs lines 72 to 84): dispatch the token
request, decode an AuthToken from it, and replace the authorization state
on success; on failure the state is left as it was on entry. The pair
returns the mutated client alongside the result. -/
def Client.authorize (c : Client) : Except ErrorKind Unit × Client :=
  match Client.parse_json (α := AuthToken) (c.http c.token_request) with
  | .ok auth => (Except.ok (), { c with auth := Authorization.Token auth })
  | .error e => (Except.error e, c)

/-- Client new (client.rs lines 27 to 38): store the base URL and the
credentials, then run one authorize exchange; its failure is returned and
no client value is produced. The reqwest client built internally is the
transport argument here. -/
def Client.new (url_base : Url) (credentials : Credentials) (http : HttpClient) :
    Except ErrorKind Client :=
  match Client.authorize
      { url_base := url_base, http := http,
        auth := Authorization.Credentials credentials } with
  | (.ok _, c) => Except.ok c
  | (.error e, _) => Except.error e

/-- Client reauthorize (client.rs lines 64 to 70): overwrite the
authorization state with the new raw credentials, then run authorize. -/
def Client.reauthorize (c : Client) (credentials : Credentials) :
    Except ErrorKind Unit × Client :=
  Client.authorize { c with auth := Authorization.Credentials credentials }

/-- Client sources (client.rs lines 135 to 142): GET the sources path with
the standard headers and decode a Sources value. The method borrows the
client immutably, so the returned state is the input state; the pair makes
that frame explicit. The remaining JSON endpoint wrappers of client.rs
repeat this shape with other paths, verbs and result types. -/
def Client.sources (c : Client) : Except ErrorKind Sources × Client :=
  (Client.parse_json (c.http
    { method := Method.GET, url := c.url "sources", headers := c.headers,
      body := none }), c)

/-- Client download_submission (client.rs lines 219 to 244): GET the
download path with the download headers and stream the raw payload into the
caller supplied sink. The sink is modelled by returning the string written
to it; copy_to itself is an IO collaborator and is assumed to succeed. -/
def Client.download_submission (c : Client) (filesystem_id : String)
    (submission_id : Nat) : Except ErrorKind Unit × String :=
  let resp := c.http
    { method := Method.GET
      url := c.url ("sources/" ++ filesystem_id ++ "/submissions/"
        ++ toString submission_id ++ "/download")
      headers := c.download_headers
      body := none }
  match Client.parse_req resp (fun r => (Except.ok r.raw : Except ErrorKind String)) with
  | .ok s => (Except.ok (), s)
  | .error e => (Except.error e, "")

/-- Stated from the words of the spec, for comparison with Client url: every
operation appends its fixed path template under the versioned prefix to the
base URL prefix, so request paths are relative to the base followed by
api/v1/. The base path is assumed to end with a slash, as in the base URL
example of the constructor documentation. -/
def spec_relative_url (base : Url) (path : String) : Url :=
  { base with path := base.path ++ "api/v1/" ++ path }

/-- Concrete fixtures used by witnesses and counterexamples. -/
def sample_url : Url := { scheme := "http", host := "localhost", path := "/" }

def sample_totp : UserPassTotp := UserPassTotp.new "journalist" "pass" "123123"

def sample_creds : Credentials := Credentials.UserPassTotp sample_totp

def sample_token : AuthToken := { token := "sometoken", expires := "2018-07-01T00:00:00Z" }

/-- A 403 response whose body is the documented message object. -/
def response_message_forbidden : HttpResponse :=
  { status := 403, body := Except.ok (Json.obj [("message", Json.str "Forbidden")]), raw := "" }

/-- A 403 response whose body is a bare JSON string. -/
def response_string_forbidden : HttpResponse :=
  { status := 403, body := Except.ok (Json.str "Forbidden"), raw := "" }

/-- A transport whose reply is a 403 with a bare JSON string body. -/
def http_forbidden_string : HttpClient := fun _ =>
  Except.ok response_string_forbidden

/-- A transport that always fails below the HTTP level. -/
def http_network_down : HttpClient := fun _ =>
  Except.error { is_http := false, is_server_error := false }

/-- A 200 response whose body does not match the Sources schema. -/
def response_bad_sources : HttpResponse :=
  { status := 200, body := Except.ok (Json.str "bad"), raw := "" }

/-- A transport whose reply is always response_bad_sources. -/
def http_bad_sources : HttpClient := fun _ => Except.ok response_bad_sources

def c2_client : Client :=
  { url_base := sample_url, http := http_bad_sources,
    auth := Authorization.Token sample_token }

def c4_client : Client :=
  { url_base := sample_url, http := http_network_down,
    auth := Authorization.Token sample_token }

def c8_base : Url :=
  { scheme := "https", host := "someonionservice.onion", path := "/some/path/" }

def c8_client : Client :=
  { url_base := c8_base, http := http_network_down,
    auth := Authorization.Credentials sample_creds }

def c10_client : Client :=
  { url_base := sample_url, http := http_bad_sources,
    auth := Authorization.Credentials sample_creds }

/-- C1: the spec table says a 4xx status attempts to decode an error body
with a message field, yielding ClientError of the message on success. The
source instead decodes the 4xx body as a bare JSON string, because the
ClientError variant holds a String and type inference resolves resp json to
String: the documented message-object body fails to decode and yields
ProgrammingError with the parse failure message, while a bare JSON string
body is what actually yields ClientError. This theorem evaluates parse_json
on both bodies at status 403. -/
theorem c1_fourxx_body_decoded_as_bare_string :
    Client.parse_json (α := Sources) (Except.ok response_message_forbidden)
      = Except.error (ErrorKind.ProgrammingError "Parse failure.")
    ∧ Client.parse_json (α := Sources) (Except.ok response_string_forbidden)
      = Except.error (ErrorKind.ClientError "Forbidden") :=
  ⟨rfl, rfl⟩

/-- Helper: one authorize exchange either succeeds and replaces the
authorization state with the freshly decoded token, or fails and leaves the
client exactly as it was on entry. -/
theorem Client.authorize_cases (c : Client) :
    (∃ t, Client.authorize c = (Except.ok (), { c with auth := Authorization.Token t }))
    ∨ ∃ e, Client.authorize c = (Except.error e, c) := by
  unfold Client.authorize
  cases Client.parse_json (α := AuthToken) (c.http c.token_request) with
  | ok a => exact Or.inl ⟨a, rfl⟩
  | error e => exact Or.inr ⟨e, rfl⟩

/-- C2: when the transport answers a resource operation with a successful
status whose body fails to decode into the expected type, the operation
yields ProgrammingError carrying the decode detail, and the authorization
state of the engine is unchanged by the failure. Stated for the sources
operation, whose shape every JSON endpoint wrapper repeats. -/
theorem c2_decode_failure_programming_error_and_frame
    (c : Client) (r : HttpResponse) (d : String)
    (hresp : c.http
      { method := Method.GET, url := Client.url c "sources",
        headers := Client.headers c, body := none } = Except.ok r)
    (hstatus : status_is_success r.status = true)
    (hdecode : HttpResponse.json (α := Sources) r = Except.error d) :
    Client.sources c = (Except.error (ErrorKind.ProgrammingError d), c)
    ∧ (Client.sources c).2.auth = c.auth := by
  refine ⟨?_, rfl⟩
  unfold Client.sources Client.parse_json
  rw [hresp]
  unfold Client.parse_req
  simp [hstatus, hdecode]

/-- C2 witness: a concrete client whose transport answers 200 with a body
that is not a Sources record. -/
theorem c2_witness :
    Client.sources c2_client
      = (Except.error (ErrorKind.ProgrammingError "invalid type: expected an object"),
         c2_client)
    ∧ (Client.sources c2_client).2.auth = c2_client.auth :=
  c2_decode_failure_programming_error_and_frame c2_client response_bad_sources
    "invalid type: expected an object" rfl rfl rfl

/-- C3 counterexample: a constructor run whose token exchange is rejected
with a 403 carrying a decodable body returns ClientError, not AuthError: no
failure path of the construction ever produces the AuthError value. -/
theorem c3_counterexample :
    Client.new sample_url sample_creds http_forbidden_string
      = Except.error (ErrorKind.ClientError "Forbidden")
    ∧ ErrorKind.ClientError "Forbidden" ≠ ErrorKind.AuthError :=
  ⟨rfl, by decide⟩

/-- C3 amended: constructing a client stores the base URL and the
credentials and immediately performs one authorize exchange; if that
exchange fails, the constructor returns the classification error of the
exchange itself (AuthError is defined but never produced), and no client
value is produced; on success the produced client keeps the base URL and
holds a token. -/
theorem c3_new_runs_one_exchange (url_base : Url) (credentials : Credentials)
    (http : HttpClient) :
    (∀ e c', Client.authorize
        { url_base := url_base, http := http,
          auth := Authorization.Credentials credentials } = (Except.error e, c') →
        Client.new url_base credentials http = Except.error e)
    ∧ (∀ c', Client.authorize
        { url_base := url_base, http := http,
          auth := Authorization.Credentials credentials } = (Except.ok (), c') →
        Client.new url_base credentials http = Except.ok c'
        ∧ c'.url_base = url_base ∧ ∃ t, c'.auth = Authorization.Token t) := by
  constructor
  · intro e c' h
    unfold Client.new
    rw [h]
  · intro c' h
    rcases Client.authorize_cases
        { url_base := url_base, http := http,
          auth := Authorization.Credentials credentials } with ⟨t, ht⟩ | ⟨e, he⟩
    · have hc : ({ url_base := url_base, http := http,
                   auth := Authorization.Token t } : Client) = c' :=
        congrArg Prod.snd (ht.symm.trans h)
      subst hc
      refine ⟨?_, rfl, ⟨t, rfl⟩⟩
      unfold Client.new
      rw [ht]
    · have h1 := congrArg Prod.fst (he.symm.trans h)
      simp at h1

/-- C3 witness: a transport failure below HTTP makes the constructor fail
with the NetworkError classification of the exchange. -/
theorem c3_witness :
    Client.new sample_url sample_creds http_network_down
      = Except.error ErrorKind.NetworkError :=
  (c3_new_runs_one_exchange sample_url sample_creds http_network_down).1
    ErrorKind.NetworkError
    { url_base := sample_url, http := http_network_down,
      auth := Authorization.Credentials sample_creds } rfl

/-- C4: when reauthorize fails, the engine is left holding the new raw
credentials and no token: the header map of every JSON operation and of the
download operation carries no Authorization entry, and the token request
dispatched by the exchange itself already carried none, so no request ever
carries the old replaced token. -/
theorem c4_reauthorize_discards_token
    (c : Client) (credentials : Credentials) (e : ErrorKind) (c' : Client)
    (h : Client.reauthorize c credentials = (Except.error e, c')) :
    c'.auth = Authorization.Credentials credentials
    ∧ (Client.headers c').authorization = none
    ∧ (Client.download_headers c').authorization = none
    ∧ (Client.token_request { c with
        auth := Authorization.Credentials credentials }).headers.authorization = none := by
  unfold Client.reauthorize at h
  rcases Client.authorize_cases { c with auth := Authorization.Credentials credentials }
    with ⟨t, ht⟩ | ⟨e', he⟩
  · have h1 := congrArg Prod.fst (ht.symm.trans h)
    simp at h1
  · have hc : ({ c with auth := Authorization.Credentials credentials } : Client) = c' :=
      congrArg Prod.snd (he.symm.trans h)
    subst hc
    exact ⟨rfl, rfl, rfl, rfl⟩

/-- C4 witness: reauthorizing a token holding client over a dead transport
fails and leaves the engine with the new raw credentials and no
Authorization header anywhere. -/
theorem c4_witness :
    ({ c4_client with auth := Authorization.Credentials sample_creds } : Client).auth
      = Authorization.Credentials sample_creds
    ∧ (Client.headers { c4_client with
        auth := Authorization.Credentials sample_creds }).authorization = none
    ∧ (Client.download_headers { c4_client with
        auth := Authorization.Credentials sample_creds }).authorization = none
    ∧ (Client.token_request { c4_client with
        auth := Authorization.Credentials sample_creds }).headers.authorization = none :=
  c4_reauthorize_discards_token c4_client sample_creds ErrorKind.NetworkError
    { c4_client with auth := Authorization.Credentials sample_creds } rfl

/-- C5: serializing either credential variant produces a record whose key
list is exactly username, password, one_time_code; both variants yield the
identical key set. -/
theorem c5_serialize_key_set (credentials : Credentials) :
    (Credentials.serialize credentials).map Prod.fst
      = ["username", "password", "one_time_code"] := by
  cases credentials <;> rfl

/-- C6 counterexample: serializing the HOTP variant built with the one time
code 42 emits the field value 42 verbatim, which is not the zero padded six
digit form 000042 the claim requires; no fresh code is computed from any
secret. -/
theorem c6_counterexample :
    (Credentials.serialize
        (Credentials.UserPassHotp (UserPassHotp.new "journalist" "pass" "42"))).lookup
        "one_time_code" = some (Json.str "42")
    ∧ ("42" : String) ≠ "000042" :=
  ⟨rfl, by decide⟩

/-- C6 amended: for the HOTP style variant the serialized record carries the
caller supplied one time code verbatim (together with the username and the
passphrase under the password key); nothing is recomputed or padded at
serialization time. -/
theorem c6_hotp_code_copied_verbatim (username passphrase one_time_code : String) :
    Credentials.serialize
        (Credentials.UserPassHotp (UserPassHotp.new username passphrase one_time_code))
      = [("username", Json.str username),
         ("password", Json.str passphrase),
         ("one_time_code", Json.str one_time_code)] :=
  rfl

/-- C8: the claim says request URLs append the operation path under api/v1/
to the base URL prefix, including a base with a non empty path prefix. The
source calls set_path, which replaces the whole path component, so for the
base of the constructor documentation with path /some/path/ the request URL
path is /api/v1/sources: the base path prefix is dropped, and the result
differs from the URL the spec words describe. -/
theorem c8_url_replaces_base_path :
    Client.url c8_client "sources"
      = { scheme := "https", host := "someonionservice.onion", path := "/api/v1/sources" }
    ∧ Client.url c8_client "sources" ≠ spec_relative_url c8_base "sources" :=
  ⟨rfl, by decide⟩

/-- C7: constructing a Reply succeeds exactly when the payload starts with
the PGP armor begin marker and ends with the matching end marker, and every
rejected payload fails locally, before any network interaction, with a
client category error (the message spelling follows the source). -/
theorem c7_reply_new_markers (s : String) :
    ((∃ r, Reply.new s = Except.ok r)
      ↔ (string_starts_with s "-----BEGIN PGP MESSAGE-----" = true
          ∧ string_ends_with s "-----END PGP MESSAGE-----" = true))
    ∧ (string_starts_with s "-----BEGIN PGP MESSAGE-----" = false
        ∨ string_ends_with s "-----END PGP MESSAGE-----" = false →
        Reply.new s = Except.error (ErrorKind.ClientError "Mesage not PGP encrypted")) := by
  cases hb : string_starts_with s "-----BEGIN PGP MESSAGE-----" <;>
    cases he : string_ends_with s "-----END PGP MESSAGE-----" <;>
      simp [Reply.new, hb, he]

/-- C7 witness: the payload plain text carries neither marker and is
rejected with the client category error. -/
theorem c7_witness :
    Reply.new "plain text"
      = Except.error (ErrorKind.ClientError "Mesage not PGP encrypted") :=
  (c7_reply_new_markers "plain text").2 (Or.inl rfl)

/-- C9 counterexample: for a token holding client, the download header map
does not only substitute the content type: it also drops the Accept entry
that every JSON call sends, so the download request differs from the other
authenticated calls in more than the content type. -/
theorem c9_counterexample :
    (Client.download_headers c2_client).accept = none
    ∧ (Client.headers c2_client).accept = some "application/json"
    ∧ (Client.download_headers c2_client).contentType ≠ (Client.headers c2_client).contentType :=
  ⟨rfl, rfl, by decide⟩

/-- C9 amended: every authenticated JSON call sends content type
application/json, accept application/json and the Authorization token
header; the download operation substitutes the distinct content type
spelled appication/pgp-encrypted in the source and also omits the Accept
header entirely. -/
theorem c9_headers_contract (c : Client) (t : AuthToken)
    (h : c.auth = Authorization.Token t) :
    Client.headers c
      = { contentType := some "application/json", accept := some "application/json",
          authorization := some ("Token " ++ t.token) }
    ∧ Client.download_headers c
      = { contentType := some "appication/pgp-encrypted", accept := none,
          authorization := some ("Token " ++ t.token) } := by
  cases c with
  | mk url_base http auth =>
    subst h
    exact ⟨rfl, rfl⟩

/-- C9 witness: the concrete header maps of a token holding client. -/
theorem c9_witness :
    Client.headers c2_client
      = { contentType := some "application/json", accept := some "application/json",
          authorization := some ("Token " ++ sample_token.token) }
    ∧ Client.download_headers c2_client
      = { contentType := some "appication/pgp-encrypted", accept := none,
          authorization := some ("Token " ++ sample_token.token) } :=
  c9_headers_contract c2_client sample_token rfl

/-- C10: while the engine holds raw credentials rather than a token, no
header map carries an Authorization entry (none is fabricated), the token
exchange request itself carries none, and a resource operation still hands
its assembled request to the transport and classifies whatever comes back:
no local failure path exists for that state. -/
theorem c10_credentials_state_requests (c : Client) (creds : Credentials)
    (h : c.auth = Authorization.Credentials creds) :
    (Client.headers c).authorization = none
    ∧ (Client.download_headers c).authorization = none
    ∧ (Client.token_request c).headers.authorization = none
    ∧ Client.sources c
      = (Client.parse_json (c.http
          { method := Method.GET, url := Client.url c "sources",
            headers := Client.headers c, body := none }), c) := by
  cases c with
  | mk url_base http auth =>
    subst h
    exact ⟨rfl, rfl, rfl, rfl⟩

/-- C10 witness: a concrete client still holding raw credentials sends its
sources request with no Authorization header and classifies the transport
answer. -/
theorem c10_witness :
    (Client.headers c10_client).authorization = none
    ∧ (Client.download_headers c10_client).authorization = none
    ∧ (Client.token_request c10_client).headers.authorization = none
    ∧ Client.sources c10_client
      = (Client.parse_json (c10_client.http
          { method := Method.GET, url := Client.url c10_client "sources",
            headers := Client.headers c10_client, body := none }), c10_client) :=
  c10_credentials_state_requests c10_client sample_creds rfl

end SecureDrop
